import Mathlib

set_option autoImplicit false

namespace Databend

/-!
Shallow embedding of `src/cli/src/cmds/queries/query.rs` (the `query` subcommand of the
databend CLI): statement splitting, query-source resolution, endpoint construction and the
per-statement dispatch loop of `local_exec_match`, together with the helpers
`local_exec_precheck`, `build_query_endpoint`, `query_writer` and `execute_query`.
Rust panics (`expect`, `todo!`) are modelled as the `.error` channel of an outer
`Except Panic`; values returned normally live in the `.ok` channel.
-/

/-- Panic messages: a Rust `expect`/`todo!` abort carries the message of the panic. -/
abbrev Panic := String

/-- Model of `crate::error::CliError`; only the `Unknown(String)` constructor is used by
this file of the source. -/
inductive CliError where
  | unknown (msg : String)
  deriving DecidableEq, Repr

/-- Rendering of the Rust debug formatting of a `CliError`, as interpolated into the
messages written by `local_exec_match` and `query_writer`. -/
def CliError.describe : CliError → String
  | .unknown m => "Unknown(" ++ m ++ ")"

/- ### Statement splitter (lines 134-138 of query.rs) -/

/-- Whitespace predicate used by trimming; Rust `char::is_whitespace` restricted to the
ASCII whitespace characters recognised by `Char.isWhitespace`. -/
def isWs (c : Char) : Bool := c.isWhitespace

/-- Model of Rust `str::trim`: drop whitespace from both ends. -/
def trimL (l : List Char) : List Char :=
  ((l.dropWhile isWs).reverse.dropWhile isWs).reverse

/-- Model of Rust `str::split(sep)`: split a character list at every occurrence of `sep`;
the separator is consumed, empty segments are kept, and the empty input yields one empty
segment, exactly as in Rust. -/
def splitOnChar (sep : Char) : List Char → List (List Char)
  | [] => [[]]
  | c :: rest =>
      let r := splitOnChar sep rest
      if c = sep then [] :: r else (c :: r.headD []) :: r.tail

/-- Blank test used by the filter in the splitter: `elem.trim().is_empty()`. -/
def isBlank (s : List Char) : Bool := (trimL s).isEmpty

/-- Segments of the source text that survive the filter
`.filter(|elem| !elem.trim().is_empty())` after `.split(';')`. -/
def nonBlankSegments (text : List Char) : List (List Char) :=
  (splitOnChar ';' text).filter (fun s => ! isBlank s)

/-- Statement splitter of `local_exec_match`:
`queries.split(';').filter(|elem| !elem.trim().is_empty()).map(|elem| format "elem;")`. -/
def splitStatementsL (text : List Char) : List (List Char) :=
  (nonBlankSegments text).map (fun s => s ++ [';'])

/-- String-level wrapper of the statement splitter. -/
def splitStatements (s : String) : List String :=
  (splitStatementsL s.data).map String.mk

/- ### Decimal rendering and socket-address parsing (lines 244-250 of query.rs) -/

/-- Fuel-driven decimal rendering helper; the fuel argument only forces structural
recursion and never runs out when it starts at least one above the rendered number. -/
def natDigitsAux : Nat → Nat → List Char
  | 0, _ => []
  | fuel + 1, n =>
      if n < 10 then [Nat.digitChar n]
      else natDigitsAux fuel (n / 10) ++ [Nat.digitChar (n % 10)]

/-- Decimal rendering of a natural number, as produced by the Rust `Display`
implementations for `u16` ports and `Ipv4Addr` octets interpolated by `format`. -/
def natDigits (n : Nat) : List Char := natDigitsAux (n + 1) n

/-- Octet parser of Rust `std` IPv4 address parsing: one to three decimal digits, no
leading zero except for the single digit 0, value at most 255. -/
def parseOctet (l : List Char) : Option Nat :=
  if l = [] then none
  else if ! l.all Char.isDigit then none
  else if 3 < l.length then none
  else if l.headD ' ' = '0' ∧ 1 < l.length then none
  else
    let v := l.foldl (fun a c => 10 * a + (c.toNat - 48)) 0
    if v ≤ 255 then some v else none

/-- Model of Rust `std` `Ipv4Addr::from_str`: four octets separated by dots. -/
def parseIpv4 (l : List Char) : Option (Nat × Nat × Nat × Nat) :=
  match (splitOnChar '.' l).map parseOctet with
  | [some a, some b, some c, some d] => some (a, b, c, d)
  | _ => none

/-- Port parser of Rust `std` socket-address parsing: decimal digits, value at most
65535 (leading zeros tolerated, as in `std`). -/
def parsePort (l : List Char) : Option Nat :=
  if l = [] ∨ ! l.all Char.isDigit then none
  else
    let v := l.foldl (fun a c => 10 * a + (c.toNat - 48)) 0
    if v ≤ 65535 then some v else none

/-- Combination of the host and port parsers: both must succeed. -/
def parseHostPort (host portStr : List Char) : Option ((Nat × Nat × Nat × Nat) × Nat) :=
  match parseIpv4 host, parsePort portStr with
  | some ip, some p => some (ip, p)
  | _, _ => none

/-- Model of Rust `std` `SocketAddr::from_str` restricted to the IPv4 form
`a.b.c.d:port`; bracketed IPv6 forms are not modelled (no claim exercises them). A host
that is not a literal IPv4 address, such as a DNS name, fails to parse. -/
def parseSocketAddr (l : List Char) : Option ((Nat × Nat × Nat × Nat) × Nat) :=
  match splitOnChar ':' l with
  | [host, portStr] => parseHostPort host portStr
  | _ => none

/-- Display form of a parsed IPv4 address, dotted decimal. -/
def ipv4Chars : Nat × Nat × Nat × Nat → List Char
  | (a, b, c, d) =>
      natDigits a ++ '.' :: natDigits b ++ '.' :: natDigits c ++ '.' :: natDigits d

/- ### Local status configuration (consumed via `Status`, lines 232-254 of query.rs) -/

/-- Fields of one local query-service configuration entry consumed by
`build_query_endpoint`; the nested Rust path `query.config.query.*` is flattened to the
four fields the source reads. -/
structure QueryConfig where
  http_handler_host : String
  http_handler_port : Nat
  api_tls_server_key : String
  api_tls_server_cert : String
  deriving DecidableEq, Repr

/-- Model of the persisted `Status` record: the list of local query-service
configuration entries together with the local configuration directory used in the
precheck error message. -/
structure Status where
  local_query_configs : List QueryConfig
  local_config_dir : String
  deriving DecidableEq, Repr

/-- Accessor mirroring `Status::get_local_query_configs`; the source destructures each
entry as a `(name, config)` pair and uses only the config, so the model keeps only the
config. -/
def Status.get_local_query_configs (s : Status) : List QueryConfig :=
  s.local_query_configs

/-- Modelled from the spec: `Status::has_local_configs` lives in the status module of
this repository, which is not among the provided sources; per the spec precheck section
it confirms that at least one local query-service configuration entry exists. -/
def Status.has_local_configs (s : Status) : Bool :=
  ! s.local_query_configs.isEmpty

/-- Precheck failure message of `local_exec_precheck` (backquotes of the original text
omitted). -/
def noLocalConfigMsg (dir : String) : String :=
  "Query command error: cannot find local configs in " ++ dir ++
    ", please run bendctl cluster create --profile local to create a new local cluster"

/- ### Endpoint construction (`build_query_endpoint`, lines 232-256 of query.rs) -/

/-- URL built by `build_query_endpoint` from the parsed socket address:
`format "http://ip:port/v1/statement"` using the address display forms. -/
def urlOfAddr (addr : (Nat × Nat × Nat × Nat) × Nat) : String :=
  String.mk ("http://".data ++ ipv4Chars addr.1 ++ ':' :: natDigits addr.2 ++
    "/v1/statement".data)

/-- Branch of `build_query_endpoint` on the socket-address parse result: a parse
failure is the panic of `expect("cannot build query socket address")`, a parsed address
yields the URL. -/
def endpointOfParse (r : Option ((Nat × Nat × Nat × Nat) × Nat)) :
    Except Panic (Except CliError String) :=
  match r with
  | none => .error "cannot build query socket address"
  | some addr => .ok (.ok (urlOfAddr addr))

/-- Model of `build_query_endpoint`. The reqwest client build is modelled as always
succeeding and the client handle is elided; the returned value is the URL. The outer
`Except Panic` carries the panics of the source: `expect("cannot find query configs")`
on an empty configuration list, `expect("cannot build query socket address")` on a
socket-address parse failure, and the `todo!()` of the secure-channel branch, whose Rust
panic message is "not yet implemented". The inner `Except CliError` is the declared
return type of the function; note that the source never constructs its `Err` case. -/
def build_query_endpoint (status : Status) : Except Panic (Except CliError String) :=
  match status.get_local_query_configs.get? 0 with
  | none => .error "cannot find query configs"
  | some q =>
      if q.api_tls_server_key.isEmpty || q.api_tls_server_cert.isEmpty then
        endpointOfParse (parseSocketAddr
          (q.http_handler_host.data ++ ':' :: natDigits q.http_handler_port))
      else .error "not yet implemented"

/- ### Query execution and per-statement reporting (lines 184-295 of query.rs) -/

/-- Server progress counters, `common_base::ProgressValues` as consumed here. -/
structure ProgressValues where
  read_rows : Nat
  read_bytes : Nat
  deriving DecidableEq, Repr

/-- Decoded HTTP response payload (`HttpQueryResult`): optional column names, optional
rows of display strings, optional progress stats. Field descriptors are modelled by
their names and cell values by their display strings, which is all the source consumes. -/
structure HttpQueryResult where
  columns : Option (List String)
  data : Option (List (List String))
  stats : Option ProgressValues
  deriving DecidableEq, Repr

/-- Rendered table built by `execute_query`: optional header of column names plus the
rows; the comfy-table presets and colors are display concerns and are elided. -/
structure Table where
  header : Option (List String)
  rows : List (List String)
  deriving DecidableEq, Repr

/-- Outcome of the HTTP round trip for one statement, supplied by the environment: the
POST send step fails (which the source turns into a panic through
`expect("cannot post to http handler")`), the JSON decode step fails with a message, or
a decoded `HttpQueryResult` arrives. -/
inductive HttpOutcome where
  | sendPanic
  | decodeErr (msg : String)
  | success (resp : HttpQueryResult)
  deriving DecidableEq, Repr

/-- Model of `execute_query`: a send failure panics; a decode failure is wrapped into
`CliError::Unknown("Cannot retrieve query result: ...")` and returned as `Err`; success
yields the rendered table and the optional stats. -/
def execute_query (outcome : HttpOutcome) :
    Except Panic (Except CliError (Table × Option ProgressValues)) :=
  match outcome with
  | .sendPanic => .error "cannot post to http handler"
  | .decodeErr e => .ok (.error (.unknown ("Cannot retrieve query result: " ++ e)))
  | .success ans =>
      .ok (.ok ({ header := ans.columns, rows := ans.data.getD [] }, ans.stats))

/-- Minimal model of the nonnegative f64 values produced by the throughput division: a
finite exact rational kept as a normalized numerator-denominator pair, positive
infinity, or NaN. Rounding of finite values is not modelled; only the zero-divisor
behaviour matters to the claims. -/
inductive F where
  | fin (num den : Nat)
  | inf
  | nan
  deriving DecidableEq, Repr

/-- Construction of a finite value from an unnormalized nonnegative pair with nonzero
denominator; normalization makes the derived structural equality coincide with value
equality on constructed values. -/
def F.ofRatPair (num den : Nat) : F :=
  F.fin (num / num.gcd den) (den / num.gcd den)

/-- IEEE division of two nonnegative exact values, each given as a
numerator-denominator pair with nonzero denominator, as performed on f64 by the source:
a zero divisor yields infinity (or NaN when the dividend is zero too), otherwise the
exact quotient. -/
def fdivQ (anum aden bnum bden : Nat) : F :=
  if bnum = 0 then (if anum = 0 then F.nan else F.inf)
  else F.ofRatPair (anum * bden) (aden * bnum)

/-- Model of the `lexical_util` `as_u128` saturating cast applied to the rows-per-second
f64: infinity saturates to the largest u128, NaN casts to zero, finite values truncate
and clamp. -/
def asU128 : F → Nat
  | .fin num den => min (num / den) (2 ^ 128 - 1)
  | .inf => 2 ^ 128 - 1
  | .nan => 0

/-- Events written through the `Writer`: `write_ok`, `write_err`, the `writeln` of a
rendered table, and the throughput line (modelled by the values interpolated into it:
read rows, read bytes, rows per second after the u128 cast, bytes per second before
byte-unit scaling). -/
inductive WriterEvent where
  | okMsg (msg : String)
  | errMsg (msg : String)
  | tableOut (t : Table)
  | statsLine (read_rows read_bytes rowsPerSec : Nat) (bytesPerSec : F)
  deriving DecidableEq, Repr

/-- Model of `query_writer` for one statement: on success the table is written, then,
when stats are present, the throughput line computed by dividing the counters by
`time = elapsed_ms / 1000` with no guard against `time = 0`; the f64 `time` is carried
as the exact pair `(elapsed_ms, 1000)` into the division. On a returned execution
error an error line is written. The function returns `Ok(())` on every non-panicking
path, exactly as the source does. The `byte_unit from_unit` `expect` cannot fire on the
nonnegative values produced here and is modelled as non-panicking. -/
def query_writer (outcome : HttpOutcome) (elapsedMs : Nat) :
    Except Panic (List WriterEvent × Except CliError Unit) :=
  match execute_query outcome with
  | .error p => .error p
  | .ok (.error e) =>
      .ok ([.errMsg ("Query command error: cannot execute query with error: " ++
        e.describe)], .ok ())
  | .ok (.ok (res, stats)) =>
      match stats with
      | none => .ok ([.tableOut res], .ok ())
      | some stat =>
          let bytesPerSec := fdivQ stat.read_bytes 1 elapsedMs 1000
          let rowsPerSec := asU128 (fdivQ stat.read_rows 1 elapsedMs 1000)
          .ok ([.tableOut res,
            .statsLine stat.read_rows stat.read_bytes rowsPerSec bytesPerSec], .ok ())

/- ### The dispatcher (`local_exec_match` and `local_exec_precheck`) -/

/-- Environment of one invocation: the result of `Status::read` (used by both the
precheck and the body), the optional positional query argument, the filesystem, URL and
stdin oracles consumed by source resolution, and the HTTP outcome and measured elapsed
milliseconds of the i-th executed statement. File reads, URL fetches and the stdin read
are modelled as succeeding; their failures panic in the source before any statement
exists and no claim exercises them. -/
structure Env where
  statusRead : Except CliError Status
  queryArg : Option String
  fileExists : String → Bool
  fileContents : String → String
  urlFetch : String → String
  stdinInput : String
  httpOutcome : Nat → HttpOutcome
  elapsedMs : Nat → Nat

/-- Model of Rust `str::starts_with(pat)` for a string pattern: the pattern characters
lead the subject characters. -/
def startsWithStr (pat s : String) : Bool := pat.data.isPrefixOf s.data

/-- Model of the source-resolution block of `local_exec_match` (lines 104-129): an
existing file path is read; otherwise an `http://` or `https://` prefix triggers a URL
fetch; otherwise the argument is the literal text; with no argument, stdin is read. -/
def resolveSource (env : Env) : String :=
  match env.queryArg with
  | some val =>
      if env.fileExists val then env.fileContents val
      else if startsWithStr "http://" val || startsWithStr "https://" val then
        env.urlFetch val
      else val
  | none => env.stdinInput

/-- Model of `local_exec_precheck`: read the status (propagating a read failure with
the question-mark operator) and fail when no local configs exist. -/
def local_exec_precheck (env : Env) : Except CliError Unit :=
  match env.statusRead with
  | .error e => .error e
  | .ok status =>
      if status.has_local_configs then .ok ()
      else .error (.unknown (noLocalConfigMsg status.local_config_dir))

instance {ε α : Type} [DecidableEq ε] [DecidableEq α] : DecidableEq (Except ε α) :=
  fun a b =>
    match a, b with
    | .ok x, .ok y =>
        if h : x = y then isTrue (by rw [h]) else isFalse (by simp [h])
    | .error x, .error y =>
        if h : x = y then isTrue (by rw [h]) else isFalse (by simp [h])
    | .ok _, .error _ => isFalse (fun hc => Except.noConfusion hc)
    | .error _, .ok _ => isFalse (fun hc => Except.noConfusion hc)

/-- Observable result of one invocation of `local_exec_match`: the writer events in
order, the statement texts submitted by POST (a submission is counted when the POST is
attempted, including a send that fails), the panic message when the process aborted, and
the value returned by the function when it returned (absent exactly when it panicked). -/
structure RunResult where
  events : List WriterEvent
  submissions : List String
  panicMsg : Option String
  ret : Option (Except CliError Unit)
  deriving DecidableEq, Repr

/-- Per-statement loop of `local_exec_match` (lines 134-150): for each statement write
the execute line, run `query_writer`, and on a returned error write the per-statement
error line; a panic aborts the remainder of the batch. The index counts executed
statements. -/
def runLoop (env : Env) (url : String) : List String → Nat → RunResult
  | [], _ => ⟨[], [], none, some (.ok ())⟩
  | stmt :: rest, i =>
      let execEvt := WriterEvent.okMsg ("Execute query " ++ stmt ++ " on " ++ url)
      match query_writer (env.httpOutcome i) (env.elapsedMs i) with
      | .error p => ⟨[execEvt], [stmt], some p, none⟩
      | .ok (evts, .ok _) =>
          let r := runLoop env url rest (i + 1)
          ⟨execEvt :: evts ++ r.events, stmt :: r.submissions, r.panicMsg, r.ret⟩
      | .ok (evts, .error e) =>
          let errEvt := WriterEvent.errMsg ("query " ++ stmt ++ " execution error: " ++
            e.describe)
          let r := runLoop env url rest (i + 1)
          ⟨execEvt :: evts ++ errEvt :: r.events, stmt :: r.submissions, r.panicMsg, r.ret⟩

/-- Model of `local_exec_match`: run the precheck (a failure is written and the function
returns `Ok`), write the precheck-passed line, re-read the status (the question-mark
operator propagates a failure as the return value), resolve the source, build the
endpoint once, and run the per-statement loop; a build failure returned as `Err` would
be written and `Ok` returned, though the source never produces that case. -/
def local_exec_match (env : Env) : RunResult :=
  match local_exec_precheck env with
  | .error e =>
      ⟨[.errMsg ("Query command precheck failed, error " ++ e.describe)], [], none,
        some (.ok ())⟩
  | .ok _ =>
      let okEvt := WriterEvent.okMsg "Query precheck passed!"
      match env.statusRead with
      | .error e => ⟨[okEvt], [], none, some (.error e)⟩
      | .ok status =>
          let queries := resolveSource env
          match build_query_endpoint status with
          | .error p => ⟨[okEvt], [], some p, none⟩
          | .ok (.error e) =>
              ⟨[okEvt, .errMsg ("Query command error: cannot parse query url with error: "
                ++ e.describe)], [], none, some (.ok ())⟩
          | .ok (.ok url) =>
              let r := runLoop env url (splitStatements queries) 0
              ⟨okEvt :: r.events, r.submissions, r.panicMsg, r.ret⟩

/- ### Concrete instances used by witnesses and counterexamples -/

/-- Sample plaintext local configuration entry. -/
def sampleConfig : QueryConfig :=
  { http_handler_host := "127.0.0.1", http_handler_port := 8081,
    api_tls_server_key := "", api_tls_server_cert := "" }

/-- Sample status record holding one plaintext local configuration. -/
def sampleStatus : Status :=
  { local_query_configs := [sampleConfig], local_config_dir := "/root/.databend/local" }

/-- Configuration entry with both TLS paths non-empty (secure channel requested). -/
def secureConfig : QueryConfig :=
  { http_handler_host := "127.0.0.1", http_handler_port := 8081,
    api_tls_server_key := "/etc/key.pem", api_tls_server_cert := "/etc/cert.pem" }

/-- Status record holding the secure configuration. -/
def secureStatus : Status :=
  { local_query_configs := [secureConfig], local_config_dir := "/d" }

/-- Environment of a three-statement batch whose second statement suffers a transport
failure at the POST send step; the first and third statements would succeed. -/
def envSendFail : Env :=
  { statusRead := .ok sampleStatus
    queryArg := some "a;b;c"
    fileExists := fun _ => false
    fileContents := fun _ => ""
    urlFetch := fun _ => ""
    stdinInput := ""
    httpOutcome := fun i =>
      if i = 1 then .sendPanic
      else .success { columns := none, data := none, stats := none }
    elapsedMs := fun _ => 5 }

/-- Environment whose query argument names an existing file even though it also starts
with an http prefix and is plausible literal SQL. -/
def envFileWins : Env :=
  { statusRead := .ok sampleStatus
    queryArg := some "http://example.com/q.sql"
    fileExists := fun s => s == "http://example.com/q.sql"
    fileContents := fun _ => "select 1;"
    urlFetch := fun _ => "select 2;"
    stdinInput := "select 3;"
    httpOutcome := fun _ => .success { columns := none, data := none, stats := none }
    elapsedMs := fun _ => 1 }

/-- Environment with no local configuration at all. -/
def envNoConfig : Env :=
  { statusRead := .ok { local_query_configs := [], local_config_dir := "/root/.databend/local" }
    queryArg := some "select 1"
    fileExists := fun _ => false
    fileContents := fun _ => ""
    urlFetch := fun _ => ""
    stdinInput := ""
    httpOutcome := fun _ => .success { columns := none, data := none, stats := none }
    elapsedMs := fun _ => 1 }

/-- Environment of a two-statement batch whose first statement fails at the JSON decode
step and whose second statement succeeds. -/
def envDecodeFail : Env :=
  { statusRead := .ok sampleStatus
    queryArg := some "select 1;select 2"
    fileExists := fun _ => false
    fileContents := fun _ => ""
    urlFetch := fun _ => ""
    stdinInput := ""
    httpOutcome := fun i =>
      if i = 0 then .decodeErr "invalid json"
      else .success { columns := none, data := none, stats := none }
    elapsedMs := fun _ => 3 }

/- ### Helper lemmas on the splitter and decimal rendering -/

theorem splitOnChar_ne_nil (sep : Char) (l : List Char) : splitOnChar sep l ≠ [] := by
  cases l with
  | nil => simp [splitOnChar]
  | cons c rest =>
      simp only [splitOnChar]
      split <;> simp

theorem splitOnChar_append (sep : Char) (s t : List Char) (h : sep ∉ s) :
    splitOnChar sep (s ++ sep :: t) = s :: splitOnChar sep t := by
  induction s with
  | nil => simp [splitOnChar]
  | cons c s' ih =>
      have hc : ¬ c = sep := fun hEq => h (hEq ▸ List.mem_cons_self c s')
      have hs' : sep ∉ s' := fun hm => h (List.mem_cons_of_mem c hm)
      show splitOnChar sep (c :: (s' ++ sep :: t)) = (c :: s') :: splitOnChar sep t
      simp only [splitOnChar]
      rw [if_neg hc, ih hs']
      simp

theorem splitOnChar_single (sep : Char) (s : List Char) (h : sep ∉ s) :
    splitOnChar sep s = [s] := by
  induction s with
  | nil => simp [splitOnChar]
  | cons c s' ih =>
      have hc : ¬ c = sep := fun hEq => h (hEq ▸ List.mem_cons_self c s')
      have hs' : sep ∉ s' := fun hm => h (List.mem_cons_of_mem c hm)
      simp only [splitOnChar, ih hs']
      rw [if_neg hc]
      simp

theorem not_mem_of_mem_splitOnChar (sep : Char) (l : List Char) :
    ∀ u ∈ splitOnChar sep l, sep ∉ u := by
  induction l with
  | nil =>
      intro u hu
      simp [splitOnChar] at hu
      subst hu
      simp
  | cons c rest ih =>
      intro u hu
      simp only [splitOnChar] at hu
      by_cases hc : c = sep
      · rw [if_pos hc] at hu
        rcases List.mem_cons.mp hu with h1 | h2
        · subst h1; simp
        · exact ih u h2
      · rw [if_neg hc] at hu
        rcases List.mem_cons.mp hu with h1 | h2
        · subst h1
          intro hmem
          rcases List.mem_cons.mp hmem with h3 | h4
          · exact hc h3.symm
          · cases hr : splitOnChar sep rest with
            | nil => exact splitOnChar_ne_nil sep rest hr
            | cons a as =>
                rw [hr] at h4
                simp only [List.headD] at h4
                exact ih a (by rw [hr]; exact List.mem_cons_self a as) h4
        · have hmem : u ∈ splitOnChar sep rest := by
            cases hr : splitOnChar sep rest with
            | nil => rw [hr] at h2; simp at h2
            | cons a as =>
                rw [hr] at h2
                exact List.mem_cons_of_mem a h2
          exact ih u hmem

theorem digitChar_isDigit : ∀ d < 10, (Nat.digitChar d).isDigit = true := by decide

theorem natDigitsAux_digits (fuel : Nat) :
    ∀ n c, c ∈ natDigitsAux fuel n → c.isDigit = true := by
  induction fuel with
  | zero =>
      intro n c hc
      simp [natDigitsAux] at hc
  | succ fuel ih =>
      intro n c hc
      simp only [natDigitsAux] at hc
      by_cases h : n < 10
      · rw [if_pos h] at hc
        simp at hc
        subst hc
        exact digitChar_isDigit n h
      · rw [if_neg h] at hc
        rcases List.mem_append.mp hc with h1 | h2
        · exact ih _ _ h1
        · simp at h2
          subst h2
          exact digitChar_isDigit _ (Nat.mod_lt n (by omega))

theorem colon_not_mem_natDigits (n : Nat) : ':' ∉ natDigits n := by
  intro h
  have hd := natDigitsAux_digits (n + 1) n ':' h
  exact absurd hd (by decide)

theorem statement_count_semi (s : List Char) (h : ';' ∉ s) :
    (s ++ [';']).count ';' = 1 := by
  rw [List.count_append, List.count_eq_zero.mpr h]
  simp

theorem splitStatementsL_cons (s t : List Char) (hsemi : ';' ∉ s)
    (hblank : isBlank s = false) :
    splitStatementsL (s ++ ';' :: t) = (s ++ [';']) :: splitStatementsL t := by
  unfold splitStatementsL nonBlankSegments
  rw [splitOnChar_append ';' s t hsemi]
  simp [hblank]

theorem split_join_aux (L : List (List Char))
    (h : ∀ s ∈ L, ';' ∉ s ∧ isBlank s = false) :
    splitStatementsL (List.flatten (L.map (fun s => s ++ [';']))) =
      L.map (fun s => s ++ [';']) := by
  induction L with
  | nil => decide
  | cons s L' ih =>
      have hs := h s (List.mem_cons_self s L')
      have hL' : ∀ u ∈ L', ';' ∉ u ∧ isBlank u = false :=
        fun u hu => h u (List.mem_cons_of_mem s hu)
      simp only [List.map_cons, List.flatten_cons]
      rw [List.append_assoc]
      rw [show ([';'] ++ List.flatten (L'.map (fun s => s ++ [';']))) =
        ';' :: List.flatten (L'.map (fun s => s ++ [';'])) from rfl]
      rw [splitStatementsL_cons s _ hs.1 hs.2, ih hL']

/- ### Claim theorems -/

/-- C2: for every input text, the statement splitter produces exactly the segments of
the semicolon split that are non-blank after trimming, in their original order, each
statement being its segment with one separator appended; moreover every produced
statement is non-empty, contains exactly one separator, and that separator is trailing. -/
theorem splitter_segments_spec (text : List Char) :
    splitStatementsL text = (nonBlankSegments text).map (fun s => s ++ [';']) ∧
    (splitStatementsL text).length = (nonBlankSegments text).length ∧
    ∀ s ∈ splitStatementsL text, s ≠ [] ∧ s.count ';' = 1 ∧ s.getLast? = some ';' := by
  refine ⟨rfl, by simp [splitStatementsL], ?_⟩
  intro s hs
  rcases List.mem_map.mp hs with ⟨seg, hseg, rfl⟩
  have hseg' : seg ∈ splitOnChar ';' text := List.mem_of_mem_filter hseg
  have hnot : ';' ∉ seg := not_mem_of_mem_splitOnChar ';' text seg hseg'
  exact ⟨by simp, statement_count_semi seg hnot, List.getLast?_concat _⟩

/-- Witness for C2 at the concrete input text "a; ;b": the first produced statement is
non-empty, has exactly one separator, and ends with it. -/
theorem splitter_segments_spec_witness :
    ['a', ';'] ≠ [] ∧ (['a', ';']).count ';' = 1 ∧ (['a', ';']).getLast? = some ';' :=
  (splitter_segments_spec "a; ;b".data).2.2 ['a', ';'] (by decide)

/-- C7: statement splitting is idempotent on already-well-formed input: splitting the
concatenation of the statements produced by a split yields the same statement sequence. -/
theorem splitter_idempotent (x : List Char) :
    splitStatementsL (List.flatten (splitStatementsL x)) = splitStatementsL x := by
  have h : ∀ s ∈ nonBlankSegments x, ';' ∉ s ∧ isBlank s = false := by
    intro s hs
    refine ⟨not_mem_of_mem_splitOnChar ';' x s (List.mem_of_mem_filter hs), ?_⟩
    have hp := List.of_mem_filter hs
    simpa using hp
  exact split_join_aux (nonBlankSegments x) h

/-- C3: source resolution precedence: an existing file path wins (even when the string
also carries an http or https prefix, since the prefix test is not consulted), then the
http or https prefix triggers a URL fetch, then the string is literal query text; with
no argument the whole of standard input is used. -/
theorem resolveSource_precedence (env : Env) :
    (∀ v, env.queryArg = some v → env.fileExists v = true →
        resolveSource env = env.fileContents v) ∧
    (∀ v, env.queryArg = some v → env.fileExists v = false →
        (startsWithStr "http://" v || startsWithStr "https://" v) = true →
        resolveSource env = env.urlFetch v) ∧
    (∀ v, env.queryArg = some v → env.fileExists v = false →
        (startsWithStr "http://" v || startsWithStr "https://" v) = false →
        resolveSource env = v) ∧
    (env.queryArg = none → resolveSource env = env.stdinInput) := by
  refine ⟨?_, ?_, ?_, ?_⟩
  · intro v hv hf
    simp [resolveSource, hv, hf]
  · intro v hv hf hp
    simp [resolveSource, hv, hf, hp]
  · intro v hv hf hp
    simp [resolveSource, hv, hf, hp]
  · intro hnone
    simp [resolveSource, hnone]

/-- Witness for C3: a query argument that names an existing file and simultaneously
starts with an http prefix resolves to the file contents, not to a fetch or to literal
text. -/
theorem resolveSource_precedence_witness : resolveSource envFileWins = "select 1;" :=
  (resolveSource_precedence envFileWins).1 "http://example.com/q.sql" rfl (by decide)

/-- C4 counterexample: with both TLS paths non-empty, `build_query_endpoint` does not
return a `NotImplemented` error value to its caller: it aborts through the `todo!()`
panic (message "not yet implemented"), so nothing at all is returned. -/
theorem secure_endpoint_panics :
    build_query_endpoint secureStatus = .error "not yet implemented" ∧
    (build_query_endpoint secureStatus).toOption = none := by
  decide

/-- C4 amended: for every configuration entry whose TLS key path and cert path are both
non-empty, endpoint resolution never constructs a plaintext http URL; it aborts with the
not-yet-implemented panic of the `todo!()` branch instead of returning to the caller. -/
theorem secure_endpoint_no_plaintext_url (st : Status) (q : QueryConfig)
    (hq : st.local_query_configs.get? 0 = some q)
    (hkey : q.api_tls_server_key.isEmpty = false)
    (hcert : q.api_tls_server_cert.isEmpty = false) :
    build_query_endpoint st = .error "not yet implemented" := by
  simp only [build_query_endpoint, Status.get_local_query_configs, hq]
  simp [hkey, hcert]

/-- Witness for C4 amended at a concrete secure configuration. -/
theorem secure_endpoint_no_plaintext_url_witness :
    build_query_endpoint secureStatus = .error "not yet implemented" :=
  secure_endpoint_no_plaintext_url secureStatus secureConfig rfl (by decide) (by decide)

/-- C6: a configuration with host 127.0.0.1, port 8081 and empty TLS paths resolves to
exactly the URL http://127.0.0.1:8081/v1/statement. -/
theorem endpoint_url_local_8081 :
    build_query_endpoint sampleStatus = .ok (.ok "http://127.0.0.1:8081/v1/statement") := by
  decide

theorem parseHostPort_of_ip_none (host p : List Char) (h : parseIpv4 host = none) :
    parseHostPort host p = none := by
  unfold parseHostPort
  rw [h]

/-- C10: endpoint resolution returns a URL only when the configured host-port string
parses as a socket address, which requires a literal IP host; with the DNS name
localhost as host, resolution aborts at the socket-address parse step (the panic of
`expect("cannot build query socket address")`) for every port, even though the
configuration is otherwise plaintext-valid. -/
theorem endpoint_requires_ip_host :
    (∀ st q url, st.local_query_configs.get? 0 = some q →
        build_query_endpoint st = .ok (.ok url) →
        (parseSocketAddr (q.http_handler_host.data ++ ':' ::
            natDigits q.http_handler_port)).isSome = true) ∧
    (∀ port dir,
        build_query_endpoint ⟨[⟨"localhost", port, "", ""⟩], dir⟩ =
          .error "cannot build query socket address") := by
  constructor
  · intro st q url hq hok
    simp only [build_query_endpoint, Status.get_local_query_configs, hq] at hok
    by_cases htls : (q.api_tls_server_key.isEmpty || q.api_tls_server_cert.isEmpty) = true
    · rw [if_pos htls] at hok
      cases hp : parseSocketAddr (q.http_handler_host.data ++ ':' ::
          natDigits q.http_handler_port) with
      | none =>
          rw [hp] at hok
          simp [endpointOfParse] at hok
      | some addr => simp [hp]
    · rw [if_neg htls] at hok
      simp at hok
  · intro port dir
    have h1 : ':' ∉ "localhost".data := by decide
    have h2 : ':' ∉ natDigits port := colon_not_mem_natDigits port
    have hparse : parseSocketAddr ("localhost".data ++ ':' :: natDigits port) = none := by
      unfold parseSocketAddr
      rw [splitOnChar_append ':' _ _ h1, splitOnChar_single ':' _ h2]
      show parseHostPort "localhost".data (natDigits port) = none
      exact parseHostPort_of_ip_none _ _ (by decide)
    have hbuild : build_query_endpoint ⟨[⟨"localhost", port, "", ""⟩], dir⟩ =
        endpointOfParse (parseSocketAddr ("localhost".data ++ ':' :: natDigits port)) :=
      rfl
    rw [hbuild, hparse]
    rfl

/-- Witness for C10: the sample configuration, whose endpoint build succeeds, has a
host-port string that parses as a socket address. -/
theorem endpoint_requires_ip_host_witness :
    (parseSocketAddr ("127.0.0.1".data ++ ':' :: natDigits 8081)).isSome = true :=
  endpoint_requires_ip_host.1 sampleStatus sampleConfig
    "http://127.0.0.1:8081/v1/statement" rfl (by decide)

/-- C1 (code-bug evaluation): in the three-statement batch of `envSendFail`, whose
second statement suffers a transport failure at the POST send step, the process aborts
through the panic of `expect("cannot post to http handler")`: the third statement is
never submitted, rendered or counted, and no per-statement failure line is written, so
the batch does not proceed past the failing statement. -/
theorem batch_aborted_by_send_failure :
    local_exec_match envSendFail =
      ⟨[.okMsg "Query precheck passed!",
        .okMsg "Execute query a; on http://127.0.0.1:8081/v1/statement",
        .tableOut ⟨none, []⟩,
        .okMsg "Execute query b; on http://127.0.0.1:8081/v1/statement"],
       ["a;", "b;"], some "cannot post to http handler", none⟩ ∧
    "c;" ∉ (local_exec_match envSendFail).submissions := by
  decide

/-- Response carrying stats of a million read rows and two million read bytes, with no
columns and no rows. -/
def statsResp : HttpQueryResult :=
  { columns := none
    data := none
    stats := some { read_rows := 1000000, read_bytes := 2000000 } }

/-- C5 (code-bug evaluation): with stats present and a measured elapsed time of zero
milliseconds, `query_writer` performs the division by zero with no guard (both rates
become infinite; the rows-per-second u128 cast saturates to the largest u128) and still
emits the throughput line instead of treating the zero-duration case as stats
unavailable. -/
theorem zero_elapsed_stats_still_reported :
    query_writer (.success statsResp) 0 =
      .ok ([.tableOut ⟨none, []⟩,
        .statsLine 1000000 2000000 (2 ^ 128 - 1) F.inf], .ok ()) := by
  decide

/-- C8: when the status record holds zero local query-service configurations, the
precheck fails with the no-local-config error, the failure is reported through the
writer, no statement is executed, no HTTP submission is performed, and the function
returns Ok. -/
theorem precheck_no_configs_short_circuits (env : Env) (st : Status)
    (hread : env.statusRead = .ok st)
    (hempty : st.local_query_configs = []) :
    local_exec_match env =
      ⟨[.errMsg ("Query command precheck failed, error " ++
          (CliError.unknown (noLocalConfigMsg st.local_config_dir)).describe)],
       [], none, some (.ok ())⟩ := by
  have hfalse : st.has_local_configs = false := by
    unfold Status.has_local_configs
    rw [hempty]
    rfl
  have hpre : local_exec_precheck env =
      .error (.unknown (noLocalConfigMsg st.local_config_dir)) := by
    simp only [local_exec_precheck, hread, hfalse]
    rfl
  simp only [local_exec_match, hpre]

/-- Witness for C8 at a concrete environment whose status has an empty configuration
list. -/
theorem precheck_no_configs_short_circuits_witness :
    local_exec_match envNoConfig =
      ⟨[.errMsg ("Query command precheck failed, error " ++
          (CliError.unknown (noLocalConfigMsg "/root/.databend/local")).describe)],
       [], none, some (.ok ())⟩ :=
  precheck_no_configs_short_circuits envNoConfig
    { local_query_configs := [], local_config_dir := "/root/.databend/local" } rfl rfl

theorem runLoop_ret_ok (env : Env) (url : String) (stmts : List String) :
    ∀ i, (runLoop env url stmts i).panicMsg = none →
      (runLoop env url stmts i).ret = some (.ok ()) := by
  induction stmts with
  | nil =>
      intro i h
      rfl
  | cons stmt rest ih =>
      intro i h
      simp only [runLoop] at h ⊢
      cases hq : query_writer (env.httpOutcome i) (env.elapsedMs i) with
      | error p =>
          rw [hq] at h
          exact Option.noConfusion h
      | ok pr =>
          obtain ⟨evts, r⟩ := pr
          cases r with
          | ok u =>
              rw [hq] at h
              exact ih (i + 1) h
          | error e =>
              rw [hq] at h
              exact ih (i + 1) h

/-- C9: whenever the invocation reaches the per-statement loop (the precheck passed on
the status that was read) and the run does not abort by panic, `local_exec_match`
returns Ok to its caller regardless of how many individual statements failed:
per-statement errors are written to the writer, never propagated as the return value. -/
theorem loop_failures_not_propagated (env : Env) (st : Status)
    (hread : env.statusRead = .ok st)
    (hcfg : st.has_local_configs = true)
    (hnopanic : (local_exec_match env).panicMsg = none) :
    (local_exec_match env).ret = some (.ok ()) := by
  have hpre : local_exec_precheck env = .ok () := by
    simp only [local_exec_precheck, hread, hcfg]
    rfl
  simp only [local_exec_match, hpre, hread] at hnopanic ⊢
  cases hb : build_query_endpoint st with
  | error p =>
      rw [hb] at hnopanic
      exact Option.noConfusion hnopanic
  | ok inner =>
      cases inner with
      | error e => rfl
      | ok url =>
          rw [hb] at hnopanic
          exact runLoop_ret_ok env url (splitStatements (resolveSource env)) 0 hnopanic

/-- Witness for C9 at a concrete two-statement batch whose first statement fails at the
decode step: the command still returns Ok. -/
theorem loop_failures_not_propagated_witness :
    (local_exec_match envDecodeFail).ret = some (.ok ()) :=
  loop_failures_not_propagated envDecodeFail sampleStatus rfl (by decide) (by decide)

end Databend
